import Mathlib

/-
  Verification development for the Story AI Reel Generation pipeline.

  Shallow embedding of the pipeline stages:
  * Gateway result normalization and URL extraction
    (src/workflow_steps/media_processor.py, generate_and_chain_media)
  * the Asset Chainer (generate_and_chain_media)
  * the Story Planner (src/workflow_steps/story_generator.py, generate_story_data)
  * the Caption Generator (generate_caption)
  * the Reel Assembler (combine_and_finalize_reel)

  External effects (the replicate backend, the Gemini backend, file download,
  moviepy decoding) are modelled as explicit oracle parameters returning
  Except values; a Python exception raised by a stage is modelled by the
  stage returning Except.error. Clip durations are modelled as rationals.
-/

namespace StoryReel

/-! ## Gateway output shapes

An output item as seen by the extraction code in generate_and_chain_media:
a plain string, a mapping (Python dict: `urlVal` is what `.get("url")`
returns, `none` when the key is absent or its value is None), or an opaque
object (`urlAttr = none` models an object with no `url` attribute;
`some v` models `hasattr(x, "url")` true with `getattr(x, "url", None) = v`).
A Python dict instance itself has no `url` attribute. -/
inductive Item where
  | str (s : String)
  | map (urlVal : Option String)
  | obj (urlAttr : Option (Option String))
deriving Repr, DecidableEq

/-- The value found under the `output` key of a dict result: either a single
scalar/object or a list. -/
inductive RawField where
  | one (item : Item)
  | many (items : List Item)
deriving Repr, DecidableEq

/-- What `client.run_model` may return, as discriminated by the chainer:
a dict (whose `output` key may be absent/None, a single value, or a list),
a bare list, or a single non-dict non-list object. A bare string at top
level is `single (Item.str s)`. -/
inductive RunOutput where
  | dict (output : Option RawField)
  | list (items : List Item)
  | single (item : Item)
deriving Repr, DecidableEq

/-- `hasattr(x, "url")` for a first-class output item. Strings and dicts
have no `url` attribute. -/
def hasUrlAttr : Item → Bool
  | Item.str _ => false
  | Item.map _ => false
  | Item.obj u => u.isSome

/-- Normalization block of generate_and_chain_media (media_processor.py
lines 33-47 and 83-94): always produce a plain list of output items. -/
def normalizeOutput : RunOutput → List Item
  | RunOutput.dict none => []
  | RunOutput.dict (some (RawField.one i)) => [i]
  | RunOutput.dict (some (RawField.many l)) => l
  | RunOutput.list l => l
  | RunOutput.single i => if hasUrlAttr i then [i] else []

/-- URL extraction (media_processor.py lines 51-61 and 100-116): inspect
only the first element of the normalized list; a string is the URL, a
mapping contributes its `url` key, an opaque handle its `url` attribute;
anything else (or an empty list) yields no URL. Totality of this function
models the code never raising on shape mismatch. -/
def extractUrl : List Item → Option String
  | [] => none
  | first :: _ =>
    match first with
    | Item.str s => some s
    | Item.map u => u
    | Item.obj (some v) => v
    | Item.obj none => none

/-- The Gateway result's raw output is None or an empty list. -/
def rawEmpty : RunOutput → Bool
  | RunOutput.dict none => true
  | RunOutput.dict (some (RawField.many l)) => l.isEmpty
  | RunOutput.dict (some (RawField.one _)) => false
  | RunOutput.list l => l.isEmpty
  | RunOutput.single _ => false

/-- Python truthiness of an extracted URL (`if not char_url`): None and the
empty string are both falsy. -/
def truthyStr : Option String → Option String
  | none => none
  | some s => if s = "" then none else some s

/-! ## Data model -/

/-- A scene record. `video_url : Option (Option String)` distinguishes the
key being absent from the dict (`none`) from the key being present with
value None (`some none`), matching the two failure markers the chainer can
leave behind. -/
structure Scene where
  scene_title : String
  scene_description : String
  character_prompt : String
  setting_prompt : String
  character_image_url : Option String := none
  video_url : Option (Option String) := none
deriving Repr, DecidableEq

structure VideoConfig where
  max_duration_per_scene_seconds : Nat
  total_reel_duration_seconds : Nat
  resolution : String
deriving Repr, DecidableEq

structure Config where
  THEMES : List String
  GEMINI_STORYBOARD_MODEL : String
  GEMINI_CAPTION_MODEL : String
  IMAGE_CHARACTER_MODEL : String
  VIDEO_GENERATOR_MODEL : String
  VIDEO_CONFIG : VideoConfig
deriving Repr, DecidableEq

/-- The story_data dict: the scene list plus the metadata keys the planner
and the caption step attach to it. -/
structure StoryData where
  scenes : List Scene
  theme : String
  num_scenes : Nat
  title : Option String := none
  reel_caption : Option String := none
deriving Repr, DecidableEq

/-! ## Asset Chainer (generate_and_chain_media) -/

/-- Error raised by APIClient.run_model: api_client.py catches every backend
exception, logs it and re-raises it ("to trigger the FATAL PIPELINE ERROR
in main.py"). -/
inductive GatewayError where
  | failure (msg : String)
deriving Repr, DecidableEq

/-- The input payloads built by the chainer for the two model calls. -/
inductive ModelInput where
  | imageInput (prompt : String) (aspect : String)
  | videoInput (prompt : String) (image : String) (duration : Nat) (resolution : String)
deriving Repr, DecidableEq

/-- The gateway: `client.run_model model_name model_input`, which either
returns an output or raises GatewayError. -/
def Gateway : Type := String → ModelInput → Except GatewayError RunOutput

/-- One iteration of the scene loop of generate_and_chain_media
(media_processor.py lines 22-125). A falsy image URL leaves the scene
unchanged (`continue` before any key is written); a falsy video URL writes
`video_url = None`; there is no try/except, so a GatewayError from either
run_model call propagates. -/
def processScene (client : Gateway) (config : Config) (scene : Scene) :
    Except GatewayError Scene :=
  match client config.IMAGE_CHARACTER_MODEL
      (ModelInput.imageInput scene.character_prompt "1:1") with
  | Except.error e => Except.error e
  | Except.ok char_output =>
    match truthyStr (extractUrl (normalizeOutput char_output)) with
    | none => Except.ok scene
    | some char_url =>
      let scene1 := { scene with character_image_url := some char_url }
      match client config.VIDEO_GENERATOR_MODEL
          (ModelInput.videoInput scene1.scene_description char_url
            config.VIDEO_CONFIG.max_duration_per_scene_seconds
            config.VIDEO_CONFIG.resolution) with
      | Except.error e => Except.error e
      | Except.ok clip_output =>
        match truthyStr (extractUrl (normalizeOutput clip_output)) with
        | none => Except.ok { scene1 with video_url := some none }
        | some v => Except.ok { scene1 with video_url := some (some v) }

/-- The scene loop: sequential, in storyboard order; an uncaught exception
in any iteration aborts the whole loop. -/
def chainScenes (client : Gateway) (config : Config) :
    List Scene → Except GatewayError (List Scene)
  | [] => Except.ok []
  | s :: rest =>
    match processScene client config s with
    | Except.error e => Except.error e
    | Except.ok s1 =>
      match chainScenes client config rest with
      | Except.error e => Except.error e
      | Except.ok rest1 => Except.ok (s1 :: rest1)

/-- generate_and_chain_media: enrich every scene in order and return the
storyboard; an exception escaping the loop makes the whole call raise. -/
def generate_and_chain_media (client : Gateway) (story : StoryData)
    (config : Config) : Except GatewayError StoryData :=
  match chainScenes client config story.scenes with
  | Except.error e => Except.error e
  | Except.ok ss => Except.ok { story with scenes := ss }

/-! ## Story Planner (generate_story_data) -/

/-- Exception raised by a Gemini backend call itself. -/
inductive BackendError where
  | callFailed (msg : String)
deriving Repr, DecidableEq

/-- The JSON object the storyboard response parses to: `storyboard = none`
models the `storyboard` key missing or not holding a list; any extra keys
other than `title` are irrelevant downstream. -/
structure StoryJson where
  storyboard : Option (List Scene)
  title : Option String := none
deriving Repr, DecidableEq

/-- A backend response text together with the outcome of parsing it as JSON
(after the markdown-fence cleanup): `parsed = none` models json.loads
raising JSONDecodeError on the cleaned text. -/
structure PlannerText where
  parsed : Option StoryJson
deriving Repr, DecidableEq

/-- How generate_story_data can fail (every error propagates out of the
function: the outer except block logs and re-raises). -/
inductive PlanningError where
  | backendFailure (msg : String)
  | jsonDecodeFailure
  | invalidStructure
deriving Repr, DecidableEq

/-- `random.choice(config['THEMES'])`, with the random draw made explicit
as an index into the pool (taken modulo the pool size). -/
def themeChoice (config : Config) (randIdx : Nat) : String :=
  config.THEMES.getD (randIdx % config.THEMES.length) ""

/-- generate_story_data (story_generator.py lines 57-129). The successive
backend responses are supplied as a stream; the second component of the
result is how many backend requests the function consumed. The code makes
exactly one generate_content call: on JSON decode failure it raises a
ValueError at once (no retry loop, no backoff), on a missing or empty
`storyboard` list it raises, and otherwise it installs the parsed scenes
under the `scenes` key together with the chosen theme and the actual scene
count (a count differing from the computed num_scenes only logs a
warning). -/
def generate_story_data (config : Config) (randIdx : Nat)
    (responses : List (Except BackendError PlannerText)) :
    Except PlanningError StoryData × Nat :=
  let theme := themeChoice config randIdx
  match responses with
  | [] => (Except.error (PlanningError.backendFailure "no response"), 0)
  | r :: _ =>
    match r with
    | Except.error (BackendError.callFailed m) =>
        (Except.error (PlanningError.backendFailure m), 1)
    | Except.ok t =>
      match t.parsed with
      | none => (Except.error PlanningError.jsonDecodeFailure, 1)
      | some j =>
        match j.storyboard with
        | none => (Except.error PlanningError.invalidStructure, 1)
        | some scenes =>
          if scenes.isEmpty then
            (Except.error PlanningError.invalidStructure, 1)
          else
            (Except.ok { scenes := scenes, theme := theme,
                         num_scenes := scenes.length, title := j.title }, 1)

/-! ## Caption Generator (generate_caption) -/

/-- The caption request: model identifier and the reel title used in the
prompt, `story_data.get('title', story_data['theme'])`. -/
structure CaptionRequest where
  model : String
  reelTitle : String
deriving Repr, DecidableEq

def captionRequest (story : StoryData) (config : Config) : CaptionRequest :=
  { model := config.GEMINI_CAPTION_MODEL,
    reelTitle := story.title.getD story.theme }

/-- Python str.strip(c): remove every leading and trailing occurrence of
the character c. -/
def stripEnds (c : Char) (s : String) : String :=
  String.mk (((s.toList.dropWhile (fun x => x = c)).reverse.dropWhile
    (fun x => x = c)).reverse)

/-- The double-quote and single-quote characters stripped from the caption. -/
def dquote : Char := Char.ofNat 34
def squote : Char := Char.ofNat 39

/-- The cleanup applied to a successful caption response:
`text.strip()` then `.strip().strip(dquote).strip(squote)`. -/
def cleanCaption (text : String) : String :=
  stripEnds squote (stripEnds dquote text.trim.trim)

/-- The deterministic fallback caption of story_generator.py line 154. -/
def fallbackCaption (theme : String) : String :=
  "An AI Reel about " ++ theme ++ ". #AI #GenAI"

/-- generate_caption (story_generator.py lines 131-155): one backend call;
any exception is caught and replaced by the fallback caption built from the
theme. The function is total: it never raises. -/
def generate_caption (backend : CaptionRequest → Except BackendError String)
    (story : StoryData) (config : Config) : StoryData :=
  match backend (captionRequest story config) with
  | Except.ok text => { story with reel_caption := some (cleanCaption text) }
  | Except.error _ =>
      { story with reel_caption := some (fallbackCaption story.theme) }

/-! ## Reel Assembler (combine_and_finalize_reel) -/

inductive DownloadError where
  | failed (msg : String)
deriving Repr, DecidableEq

/-- Any exception raised inside the per-scene moviepy try block
(VideoFileClip / resize / subclip). -/
inductive ClipError where
  | failed (msg : String)
deriving Repr, DecidableEq

/-- The download_file oracle: URL to local path, or raises. -/
def Downloader : Type := String → Except DownloadError String

/-- The moviepy load/resize/subclip oracle: local path to the duration of
the processed clip (already truncated to at most the per-scene limit by
subclip), or raises. -/
def ClipLoader : Type := String → Except ClipError ℚ

/-- The error raised by combine_and_finalize_reel when final_clips is
empty ("No video clips were successfully processed..."), the spec's
AssemblyError. -/
inductive AssemblyError where
  | nothingToAssemble
deriving Repr, DecidableEq

/-- The final rendered artifact: duration, frame size and output path. -/
structure FinalReel where
  duration : ℚ
  width : Nat
  height : Nat
  path : String
deriving Repr, DecidableEq

/-- Target frame size (media_processor.py lines 138-141). -/
def resolutionDims (res : String) : Nat × Nat :=
  if res = "480p" then (854, 480) else (480, 480)

/-- The per-scene part of the assembly loop (media_processor.py lines
146-182 up to the duration accounting): the scene contributes a clip
duration unless its `video_url` is absent/None/empty (truthiness skip),
the download raises, or the moviepy processing raises. -/
def sceneClip (download : Downloader) (load : ClipLoader) (scene : Scene) :
    Option ℚ :=
  match truthyStr (scene.video_url.getD none) with
  | none => none
  | some url =>
    match download url with
    | Except.error _ => none
    | Except.ok path =>
      match load path with
      | Except.error _ => none
      | Except.ok d => some d

/-- The duration-accounting core of the assembly loop on the stream of
successfully processed clip durations: append each duration to the running
total; as soon as the total exceeds 120, pop the clip just appended and
break. -/
def acceptLoop : List ℚ → ℚ → List ℚ
  | [], _ => []
  | d :: rest, total =>
    if total + d > 120 then []
    else d :: acceptLoop rest (total + d)

/-- The full assembly loop over scenes, interleaving the per-scene skip
tests with the duration accounting, as in the source. -/
def assembleLoop (download : Downloader) (load : ClipLoader) :
    List Scene → ℚ → List ℚ
  | [], _ => []
  | s :: rest, total =>
    match sceneClip download load s with
    | none => assembleLoop download load rest total
    | some d =>
      if total + d > 120 then []
      else d :: assembleLoop download load rest (total + d)

/-- combine_and_finalize_reel (media_processor.py lines 130-210): run the
assembly loop; raise AssemblyError when no clip was accepted; otherwise the
concatenated duration is the sum of the accepted clip durations, truncated
to the configured target when it exceeds it, and the file is rendered to
the fixed output path. -/
def combine_and_finalize_reel (download : Downloader) (load : ClipLoader)
    (story : StoryData) (config : Config) : Except AssemblyError FinalReel :=
  let accepted := assembleLoop download load story.scenes 0
  if accepted.isEmpty then
    Except.error AssemblyError.nothingToAssemble
  else
    let concatDur := accepted.sum
    let target : ℚ := config.VIDEO_CONFIG.total_reel_duration_seconds
    let finalDur := if concatDur > target then target else concatDur
    let dims := resolutionDims config.VIDEO_CONFIG.resolution
    Except.ok { duration := finalDur, width := dims.1, height := dims.2,
                path := "assets/final_reel.mp4" }

/-- The files written by an assembly run: write_videofile executes only on
the success path, after the empty-clip check. -/
def filesWritten (r : Except AssemblyError FinalReel) : List String :=
  match r with
  | Except.ok reel => [reel.path]
  | Except.error _ => []

/-! ## Concrete fixtures used by witnesses and counterexamples -/

def sceneA : Scene :=
  { scene_title := "Opening", scene_description := "A ruined gate at dawn",
    character_prompt := "explorer at the gate", setting_prompt := "jungle ruins" }

def sceneB : Scene :=
  { scene_title := "Descent", scene_description := "Steps into darkness",
    character_prompt := "explorer with torch", setting_prompt := "stone stairwell" }

def sceneC : Scene :=
  { scene_title := "Discovery", scene_description := "A golden hall revealed",
    character_prompt := "explorer amazed", setting_prompt := "golden hall" }

def config0 : Config :=
  { THEMES := ["Lost City", "Deep Sea"],
    GEMINI_STORYBOARD_MODEL := "gemini-2.0-flash",
    GEMINI_CAPTION_MODEL := "gemini-2.0-flash",
    IMAGE_CHARACTER_MODEL := "stability-ai/sdxl",
    VIDEO_GENERATOR_MODEL := "bytedance/seedance-1-pro",
    VIDEO_CONFIG := { max_duration_per_scene_seconds := 5,
                      total_reel_duration_seconds := 15,
                      resolution := "480p" } }

def story2 : StoryData :=
  { scenes := [sceneA, sceneB], theme := "Lost City", num_scenes := 2 }

/-- A storyboard with one fully enriched scene. -/
def story4 : StoryData :=
  { scenes := [{ sceneA with video_url := some (some "https://cdn.example/clip1.mp4") }],
    theme := "Lost City", num_scenes := 1 }

/-- A storyboard where one scene has no video_url key and the other has it
set to None. -/
def storyAllSkipped : StoryData :=
  { scenes := [sceneA, { sceneB with video_url := some none }],
    theme := "Lost City", num_scenes := 2 }

/-- A gateway whose every call raises GatewayError. -/
def badClient : Gateway := fun _ _ => Except.error (GatewayError.failure "network down")

/-- A gateway whose every call returns a one-element list of URL strings. -/
def okClient : Gateway := fun _ _ =>
  Except.ok (RunOutput.dict (some (RawField.many [Item.str "https://cdn.example/out.png"])))

/-- A gateway whose every call succeeds with a None output field. -/
def emptyClient : Gateway := fun _ _ => Except.ok (RunOutput.dict none)

/-- A downloader that always succeeds. -/
def download0 : Downloader := fun _ => Except.ok "assets/downloaded_videos/scene_1.mp4"

/-- A clip loader that always yields a 5-second clip. -/
def load0 : ClipLoader := fun _ => Except.ok 5

/-- A planner response whose text fails to parse as JSON. -/
def badTextP : PlannerText := { parsed := none }

/-- A planner response parsing to a valid three-scene storyboard. -/
def goodTextP : PlannerText :=
  { parsed := some { storyboard := some [sceneA, sceneB, sceneC] } }

/-- A caption backend that always raises. -/
def failBackend : CaptionRequest → Except BackendError String :=
  fun _ => Except.error (BackendError.callFailed "quota exceeded")

/-- The artifact the one-clip storyboard assembles to. -/
def reel4 : FinalReel :=
  { duration := 5, width := 854, height := 480, path := "assets/final_reel.mp4" }

deriving instance DecidableEq for Except

/-! ## Helper lemmas -/

/-- The accepted clips form a prefix of the processed-clip stream. -/
theorem acceptLoop_take :
    ∀ (ds : List ℚ) (t : ℚ), acceptLoop ds t = ds.take (acceptLoop ds t).length := by
  intro ds
  induction ds with
  | nil => intro t; rfl
  | cons d rest ih =>
    intro t
    unfold acceptLoop
    by_cases hgt : t + d > 120
    · rw [if_pos hgt]; rfl
    · rw [if_neg hgt, List.length_cons, List.take_succ_cons]
      exact congrArg (d :: ·) (ih (t + d))

/-- The running total of the accepted clips never exceeds 120. -/
theorem acceptLoop_sum_le :
    ∀ (ds : List ℚ) (t : ℚ), t ≤ 120 → t + (acceptLoop ds t).sum ≤ 120 := by
  intro ds
  induction ds with
  | nil => intro t ht; simpa [acceptLoop] using ht
  | cons d rest ih =>
    intro t ht
    unfold acceptLoop
    by_cases hgt : t + d > 120
    · rw [if_pos hgt]; simpa using ht
    · rw [if_neg hgt]
      push_neg at hgt
      have h2 := ih (t + d) hgt
      simp only [List.sum_cons]
      linarith

/-- No longer prefix of nonnegative durations fits under the cap. -/
theorem acceptLoop_maximal :
    ∀ (ds : List ℚ) (t : ℚ) (n : Nat), (∀ d ∈ ds, 0 ≤ d) → n ≤ ds.length →
      t + (ds.take n).sum ≤ 120 → n ≤ (acceptLoop ds t).length := by
  intro ds
  induction ds with
  | nil => intro t n _ hn _; simp only [acceptLoop, List.length_nil]; simpa using hn
  | cons d rest ih =>
    intro t n hnn hn hsum
    cases n with
    | zero => exact Nat.zero_le _
    | succ m =>
      have hrest : ∀ x ∈ rest, 0 ≤ x := fun x hx => hnn x (List.mem_cons_of_mem d hx)
      have htk : 0 ≤ (rest.take m).sum :=
        List.sum_nonneg (fun x hx => hrest x (List.take_subset m rest hx))
      rw [List.take_succ_cons, List.sum_cons] at hsum
      have hle : t + d ≤ 120 := by linarith
      unfold acceptLoop
      rw [if_neg (not_lt.mpr hle), List.length_cons]
      have hm : m ≤ rest.length := by simpa using hn
      exact Nat.succ_le_succ (ih (t + d) m hrest hm (by linarith))

/-- The interleaved assembly loop equals the duration-accounting core run
on the stream of per-scene processed clip durations. -/
theorem assembleLoop_eq_acceptLoop (download : Downloader) (load : ClipLoader) :
    ∀ (scenes : List Scene) (t : ℚ),
      assembleLoop download load scenes t =
        acceptLoop (scenes.filterMap (sceneClip download load)) t := by
  intro scenes
  induction scenes with
  | nil => intro t; rfl
  | cons s rest ih =>
    intro t
    cases hc : sceneClip download load s with
    | none => simp only [assembleLoop, hc, List.filterMap_cons, ih t]
    | some d =>
      simp only [assembleLoop, hc, List.filterMap_cons, acceptLoop]
      by_cases hgt : t + d > 120
      · rw [if_pos hgt, if_pos hgt]
      · rw [if_neg hgt, if_neg hgt, ih (t + d)]

/-- When every gateway call succeeds, each scene-loop iteration returns a
scene (extraction failures are skipped, never raised). -/
theorem processScene_ok (client : Gateway) (config : Config) (scene : Scene)
    (h : ∀ m i, ∃ o, client m i = Except.ok o) :
    ∃ s1, processScene client config scene = Except.ok s1 := by
  obtain ⟨o1, h1⟩ :=
    h config.IMAGE_CHARACTER_MODEL (ModelInput.imageInput scene.character_prompt "1:1")
  unfold processScene
  rw [h1]
  dsimp only
  cases htr : truthyStr (extractUrl (normalizeOutput o1)) with
  | none => exact ⟨scene, rfl⟩
  | some u =>
    dsimp only
    obtain ⟨o2, h2⟩ := h config.VIDEO_GENERATOR_MODEL
      (ModelInput.videoInput scene.scene_description u
        config.VIDEO_CONFIG.max_duration_per_scene_seconds
        config.VIDEO_CONFIG.resolution)
    rw [h2]
    dsimp only
    cases truthyStr (extractUrl (normalizeOutput o2)) with
    | none => exact ⟨_, rfl⟩
    | some v => exact ⟨_, rfl⟩

/-- When every gateway call succeeds, the scene loop returns a list related
scene-by-scene to the input. -/
theorem chainScenes_ok (client : Gateway) (config : Config)
    (h : ∀ m i, ∃ o, client m i = Except.ok o) :
    ∀ scenes : List Scene, ∃ ss, chainScenes client config scenes = Except.ok ss ∧
      List.Forall₂ (fun s s1 => processScene client config s = Except.ok s1) scenes ss := by
  intro scenes
  induction scenes with
  | nil => exact ⟨[], rfl, List.Forall₂.nil⟩
  | cons s rest ih =>
    obtain ⟨s1, hs⟩ := processScene_ok client config s h
    obtain ⟨ss, hss, hrel⟩ := ih
    refine ⟨s1 :: ss, ?_, List.Forall₂.cons hs hrel⟩
    unfold chainScenes
    rw [hs]
    dsimp only
    rw [hss]

/-! ## Claim theorems -/

/-- Claim C1: whether the raw Gateway output is the bare string u, a
one-element list containing u, a mapping whose url key is u, or an opaque
handle whose url attribute is u, the URL-extraction step of the Asset
Chainer yields the same URL u, and extraction inspects only the first
element of the normalized list. -/
theorem extract_uniform_across_shapes (u : String) (first : Item) (rest : List Item) :
    extractUrl (normalizeOutput (RunOutput.dict (some (RawField.one (Item.str u))))) = some u ∧
    extractUrl (normalizeOutput (RunOutput.dict (some (RawField.many [Item.str u])))) = some u ∧
    extractUrl (normalizeOutput (RunOutput.dict (some (RawField.one (Item.map (some u)))))) = some u ∧
    extractUrl (normalizeOutput (RunOutput.dict (some (RawField.one (Item.obj (some (some u))))))) = some u ∧
    extractUrl (first :: rest) = extractUrl [first] := by
  refine ⟨rfl, rfl, rfl, rfl, ?_⟩
  cases first with
  | str s => rfl
  | map uv => rfl
  | obj ua => cases ua <;> rfl

/-- Claim C2: when the Gateway result's raw output is None or an empty
list, extraction yields the explicit no-URL outcome and, at the chainer,
the scene is skipped unchanged; extraction is a total function, which
models that the code never raises on shape mismatch. -/
theorem extract_empty_yields_none (o : RunOutput) (client : Gateway)
    (config : Config) (scene : Scene) (h : rawEmpty o = true) :
    extractUrl (normalizeOutput o) = none ∧
    (client config.IMAGE_CHARACTER_MODEL
        (ModelInput.imageInput scene.character_prompt "1:1") = Except.ok o →
      processScene client config scene = Except.ok scene) := by
  have hx : extractUrl (normalizeOutput o) = none := by
    cases o with
    | dict oo =>
      cases oo with
      | none => rfl
      | some rf =>
        cases rf with
        | one i => simp [rawEmpty] at h
        | many l =>
          cases l with
          | nil => rfl
          | cons a b => simp [rawEmpty] at h
    | list l =>
      cases l with
      | nil => rfl
      | cons a b => simp [rawEmpty] at h
    | single i => simp [rawEmpty] at h
  refine ⟨hx, fun hc => ?_⟩
  unfold processScene
  rw [hc]
  dsimp only
  rw [hx]
  rfl

/-- Claim C2 witness at the concrete empty output and gateway. -/
theorem extract_empty_yields_none_witness :
    rawEmpty (RunOutput.dict none) = true ∧
    (extractUrl (normalizeOutput (RunOutput.dict none)) = none ∧
      (emptyClient config0.IMAGE_CHARACTER_MODEL
          (ModelInput.imageInput sceneA.character_prompt "1:1") =
          Except.ok (RunOutput.dict none) →
        processScene emptyClient config0 sceneA = Except.ok sceneA)) :=
  ⟨rfl, extract_empty_yields_none (RunOutput.dict none) emptyClient config0 sceneA rfl⟩

/-- Claim C3 counterexample: a GatewayError raised by the image-generation
call of the first scene is not caught at the scene boundary — the chainer
as a whole raises, returns no storyboard, and never reaches the second
scene, refuting the claim that it always returns the storyboard. -/
theorem chainer_aborts_on_gateway_error :
    generate_and_chain_media badClient story2 config0 =
      Except.error (GatewayError.failure "network down") := rfl

/-- Claim C3 amended: when no gateway call raises, generate_and_chain_media
does return the storyboard, every scene processed in order (a scene whose
URL extraction fails is skipped and the remaining scenes are still
processed); but a GatewayError from either generation call propagates and
aborts the whole chainer. -/
theorem chainer_returns_story_when_gateway_ok (client : Gateway)
    (story : StoryData) (config : Config)
    (h : ∀ m i, ∃ o, client m i = Except.ok o) :
    ∃ ss, generate_and_chain_media client story config =
        Except.ok { story with scenes := ss } ∧
      List.Forall₂ (fun s s1 => processScene client config s = Except.ok s1)
        story.scenes ss ∧
      ss.length = story.scenes.length := by
  obtain ⟨ss, hss, hrel⟩ := chainScenes_ok client config h story.scenes
  refine ⟨ss, ?_, hrel, (List.Forall₂.length_eq hrel).symm⟩
  unfold generate_and_chain_media
  rw [hss]

/-- Claim C3 amended witness at a concrete all-succeeding gateway. -/
theorem chainer_returns_story_when_gateway_ok_witness :
    ∃ ss, generate_and_chain_media okClient story2 config0 =
        Except.ok { story2 with scenes := ss } ∧
      List.Forall₂ (fun s s1 => processScene okClient config0 s = Except.ok s1)
        story2.scenes ss ∧
      ss.length = story2.scenes.length :=
  chainer_returns_story_when_gateway_ok okClient story2 config0
    (fun _ _ => ⟨_, rfl⟩)

/-- Claim C4: given nonnegative per-scene clip durations each at most the
configured per-scene limit, the assembly loop accepts exactly the longest
prefix of the processed clips whose cumulative duration stays within the
hard 120-second cap: the accepted clips are a prefix, their sum is at most
120, and no longer prefix fits. -/
theorem assembler_accepts_longest_prefix (download : Downloader)
    (load : ClipLoader) (story : StoryData) (config : Config)
    (h : ∀ d ∈ story.scenes.filterMap (sceneClip download load),
      0 ≤ d ∧ d ≤ (config.VIDEO_CONFIG.max_duration_per_scene_seconds : ℚ)) :
    assembleLoop download load story.scenes 0 =
        (story.scenes.filterMap (sceneClip download load)).take
          (assembleLoop download load story.scenes 0).length ∧
    (assembleLoop download load story.scenes 0).sum ≤ 120 ∧
    ∀ n, n ≤ (story.scenes.filterMap (sceneClip download load)).length →
      ((story.scenes.filterMap (sceneClip download load)).take n).sum ≤ 120 →
      n ≤ (assembleLoop download load story.scenes 0).length := by
  have hnn : ∀ d ∈ story.scenes.filterMap (sceneClip download load), 0 ≤ d :=
    fun d hd => (h d hd).1
  rw [assembleLoop_eq_acceptLoop]
  refine ⟨acceptLoop_take _ 0, ?_, ?_⟩
  · have := acceptLoop_sum_le (story.scenes.filterMap (sceneClip download load)) 0
      (by norm_num)
    linarith
  · intro n hn hsum
    exact acceptLoop_maximal _ 0 n hnn hn (by linarith)

/-- Claim C4 witness at a concrete one-clip storyboard. -/
theorem assembler_accepts_longest_prefix_witness :
    (∀ d ∈ story4.scenes.filterMap (sceneClip download0 load0),
      0 ≤ d ∧ d ≤ (config0.VIDEO_CONFIG.max_duration_per_scene_seconds : ℚ)) ∧
    (assembleLoop download0 load0 story4.scenes 0 =
        (story4.scenes.filterMap (sceneClip download0 load0)).take
          (assembleLoop download0 load0 story4.scenes 0).length ∧
      (assembleLoop download0 load0 story4.scenes 0).sum ≤ 120 ∧
      ∀ n, n ≤ (story4.scenes.filterMap (sceneClip download0 load0)).length →
        ((story4.scenes.filterMap (sceneClip download0 load0)).take n).sum ≤ 120 →
        n ≤ (assembleLoop download0 load0 story4.scenes 0).length) := by
  have hd : ∀ d ∈ story4.scenes.filterMap (sceneClip download0 load0),
      0 ≤ d ∧ d ≤ (config0.VIDEO_CONFIG.max_duration_per_scene_seconds : ℚ) := by
    intro d hd
    have : story4.scenes.filterMap (sceneClip download0 load0) = [5] := rfl
    rw [this] at hd
    simp at hd
    subst hd
    norm_num [config0]
  exact ⟨hd, assembler_accepts_longest_prefix download0 load0 story4 config0 hd⟩

/-- Claim C5: when assembly succeeds, the final artifact's duration is
exactly the configured total_reel_duration_seconds if the concatenated
duration of the accepted clips exceeds it, and is the concatenated
duration unchanged otherwise. -/
theorem final_duration_truncated_to_target (download : Downloader)
    (load : ClipLoader) (story : StoryData) (config : Config) (r : FinalReel)
    (h : combine_and_finalize_reel download load story config = Except.ok r) :
    ((assembleLoop download load story.scenes 0).sum >
        (config.VIDEO_CONFIG.total_reel_duration_seconds : ℚ) →
      r.duration = (config.VIDEO_CONFIG.total_reel_duration_seconds : ℚ)) ∧
    ((assembleLoop download load story.scenes 0).sum ≤
        (config.VIDEO_CONFIG.total_reel_duration_seconds : ℚ) →
      r.duration = (assembleLoop download load story.scenes 0).sum) := by
  unfold combine_and_finalize_reel at h
  by_cases he : (assembleLoop download load story.scenes 0).isEmpty
  · rw [if_pos he] at h
    exact absurd h (by simp)
  · rw [if_neg he] at h
    injection h with h1
    constructor
    · intro hgt
      rw [← h1]
      dsimp only
      rw [if_pos hgt]
    · intro hle
      rw [← h1]
      dsimp only
      rw [if_neg (not_lt.mpr hle)]

/-- Claim C5 witness: the concrete one-clip assembly succeeds with a
5-second reel under a 15-second target. -/
theorem final_duration_truncated_to_target_witness :
    combine_and_finalize_reel download0 load0 story4 config0 = Except.ok reel4 ∧
    (((assembleLoop download0 load0 story4.scenes 0).sum >
        (config0.VIDEO_CONFIG.total_reel_duration_seconds : ℚ) →
      reel4.duration = (config0.VIDEO_CONFIG.total_reel_duration_seconds : ℚ)) ∧
    ((assembleLoop download0 load0 story4.scenes 0).sum ≤
        (config0.VIDEO_CONFIG.total_reel_duration_seconds : ℚ) →
      reel4.duration = (assembleLoop download0 load0 story4.scenes 0).sum)) := by
  have hsc : sceneClip download0 load0
      { sceneA with video_url := some (some "https://cdn.example/clip1.mp4") } =
      some 5 := rfl
  have hloop : assembleLoop download0 load0 story4.scenes 0 = [5] := by
    show assembleLoop download0 load0
        [{ sceneA with video_url := some (some "https://cdn.example/clip1.mp4") }] 0 = [5]
    simp only [assembleLoop, hsc]
    rw [if_neg (by norm_num : ¬ ((0 : ℚ) + 5 > 120))]
  have hc : combine_and_finalize_reel download0 load0 story4 config0 =
      Except.ok reel4 := by
    unfold combine_and_finalize_reel
    rw [hloop]
    norm_num [reel4, config0, resolutionDims]
  exact ⟨hc, final_duration_truncated_to_target download0 load0 story4 config0 reel4 hc⟩

/-- Claim C6: if every scene is filtered out (missing/falsy video
reference, failed download, or failed decode), assembly fails with
AssemblyError and no output file is written. -/
theorem empty_assembly_raises (download : Downloader) (load : ClipLoader)
    (story : StoryData) (config : Config)
    (h : ∀ s ∈ story.scenes, sceneClip download load s = none) :
    combine_and_finalize_reel download load story config =
        Except.error AssemblyError.nothingToAssemble ∧
    filesWritten (combine_and_finalize_reel download load story config) = [] := by
  have hfm : story.scenes.filterMap (sceneClip download load) = [] :=
    List.filterMap_eq_nil_iff.mpr h
  have hloop : assembleLoop download load story.scenes 0 = [] := by
    rw [assembleLoop_eq_acceptLoop, hfm]
    rfl
  have hres : combine_and_finalize_reel download load story config =
      Except.error AssemblyError.nothingToAssemble := by
    unfold combine_and_finalize_reel
    rw [hloop]
    rfl
  exact ⟨hres, by rw [hres]; rfl⟩

/-- Claim C6 witness: a storyboard whose first scene has no video_url key
and whose second has it set to None. -/
theorem empty_assembly_raises_witness :
    (∀ s ∈ storyAllSkipped.scenes, sceneClip download0 load0 s = none) ∧
    (combine_and_finalize_reel download0 load0 storyAllSkipped config0 =
        Except.error AssemblyError.nothingToAssemble ∧
      filesWritten (combine_and_finalize_reel download0 load0 storyAllSkipped config0) = []) := by
  have h : ∀ s ∈ storyAllSkipped.scenes, sceneClip download0 load0 s = none := by
    intro s hs
    have hsc : storyAllSkipped.scenes =
        [sceneA, { sceneB with video_url := some none }] := rfl
    rw [hsc] at hs
    cases hs with
    | head => rfl
    | tail _ hs2 =>
      cases hs2 with
      | head => rfl
      | tail _ hs3 => cases hs3
  exact ⟨h, empty_assembly_raises download0 load0 storyAllSkipped config0 h⟩

/-- Claim C7 counterexample: the Story Planner makes exactly one backend
request; with a first response that fails to parse as JSON it fails with
PlanningError immediately, even though a parseable response was available
on what would have been the second attempt — there is no retry loop and no
backoff in generate_story_data. -/
theorem planner_no_retry_counterexample :
    generate_story_data config0 0 [Except.ok badTextP, Except.ok goodTextP] =
      (Except.error PlanningError.jsonDecodeFailure, 1) := rfl

/-- Claim C7 amended: on a JSON parse failure of the first response the
Story Planner retries nothing: it consumes exactly one backend response
and fails immediately with PlanningError. -/
theorem planner_single_attempt (config : Config) (randIdx : Nat)
    (t : PlannerText) (rest : List (Except BackendError PlannerText))
    (h : t.parsed = none) :
    generate_story_data config randIdx (Except.ok t :: rest) =
      (Except.error PlanningError.jsonDecodeFailure, 1) := by
  unfold generate_story_data
  dsimp only
  rw [h]

/-- Claim C7 amended witness at the concrete unparseable response. -/
theorem planner_single_attempt_witness :
    badTextP.parsed = none ∧
    generate_story_data config0 0 [Except.ok badTextP] =
      (Except.error PlanningError.jsonDecodeFailure, 1) :=
  ⟨rfl, planner_single_attempt config0 0 badTextP [] rfl⟩

/-- Claim C8: when the caption backend call fails, generate_caption (a
total function: it never raises) returns the storyboard with the
deterministic fallback caption, which embeds the theme string and carries
the fixed hashtag set. -/
theorem caption_fallback_on_failure
    (backend : CaptionRequest → Except BackendError String)
    (story : StoryData) (config : Config) (e : BackendError)
    (h : backend (captionRequest story config) = Except.error e) :
    generate_caption backend story config =
        { story with reel_caption := some (fallbackCaption story.theme) } ∧
    ∃ a b, fallbackCaption story.theme = a ++ story.theme ++ b ∧
      b = ". #AI #GenAI" := by
  constructor
  · unfold generate_caption
    rw [h]
  · exact ⟨"An AI Reel about ", ". #AI #GenAI", rfl, rfl⟩

/-- Claim C8 witness at a concrete always-failing caption backend. -/
theorem caption_fallback_on_failure_witness :
    failBackend (captionRequest story2 config0) =
      Except.error (BackendError.callFailed "quota exceeded") ∧
    (generate_caption failBackend story2 config0 =
        { story2 with reel_caption := some (fallbackCaption story2.theme) } ∧
      ∃ a b, fallbackCaption story2.theme = a ++ story2.theme ++ b ∧
        b = ". #AI #GenAI") :=
  ⟨rfl, caption_fallback_on_failure failBackend story2 config0
    (BackendError.callFailed "quota exceeded") rfl⟩

/-- Claim C9 counterexample: two planner runs with the same config and the
same backend responses but different random draws produce different
storyboards — the random theme choice does influence the result. -/
theorem planner_random_choice_matters :
    generate_story_data config0 0 [Except.ok goodTextP] ≠
      generate_story_data config0 1 [Except.ok goodTextP] := by decide

/-- Claim C9 amended: the planner is deterministic given config, the
randomly chosen theme, and the backend responses — the random draw
influences the result only through the selected theme. -/
theorem planner_deterministic_given_theme (config : Config) (r1 r2 : Nat)
    (responses : List (Except BackendError PlannerText))
    (h : themeChoice config r1 = themeChoice config r2) :
    generate_story_data config r1 responses =
      generate_story_data config r2 responses := by
  unfold generate_story_data
  rw [h]

/-- Claim C9 amended witness: draws 0 and 2 select the same theme from the
two-element pool and yield identical storyboards. -/
theorem planner_deterministic_given_theme_witness :
    themeChoice config0 0 = themeChoice config0 2 ∧
    generate_story_data config0 0 [Except.ok goodTextP] =
      generate_story_data config0 2 [Except.ok goodTextP] :=
  ⟨rfl, planner_deterministic_given_theme config0 0 2 [Except.ok goodTextP] rfl⟩

/-- Claim C10: the assembler's skip test is Python truthiness of the
scene's video reference, so an absent video_url key, an explicit None, and
an empty string are treated identically: the scene contributes no clip and
the assembly loop's outcome is as if the scene were not there. -/
theorem video_url_markers_equivalent (download : Downloader)
    (load : ClipLoader) (scene : Scene) (v : Option (Option String))
    (h : v = none ∨ v = some none ∨ v = some (some "")) :
    sceneClip download load { scene with video_url := v } = none ∧
    ∀ (rest : List Scene) (t : ℚ),
      assembleLoop download load ({ scene with video_url := v } :: rest) t =
        assembleLoop download load rest t := by
  have hc : sceneClip download load { scene with video_url := v } = none := by
    rcases h with rfl | rfl | rfl <;> rfl
  exact ⟨hc, fun rest t => by simp only [assembleLoop, hc]⟩

/-- Claim C10 witness at the absent-key marker. -/
theorem video_url_markers_equivalent_witness :
    ((none : Option (Option String)) = none ∨
      (none : Option (Option String)) = some none ∨
      (none : Option (Option String)) = some (some "")) ∧
    (sceneClip download0 load0 { sceneA with video_url := none } = none ∧
      ∀ (rest : List Scene) (t : ℚ),
        assembleLoop download0 load0 ({ sceneA with video_url := none } :: rest) t =
          assembleLoop download0 load0 rest t) :=
  ⟨Or.inl rfl,
    video_url_markers_equivalent download0 load0 sceneA none (Or.inl rfl)⟩

end StoryReel
